import Mathlib

/-!
# wayward::data_franca readers

A shallow embedding of `wayward/support/data_franca/reader.hpp`: the reader and
enumerator interfaces, the null-object implementations `NullReader` and
`ReaderEnumeratorAtEnd`, and the generic facade `ReaderInterface<Self, Subscript>`
with its nested `iterator`.

Conventions of the embedding.

* An interface (`IReader`, `IReaderEnumerator`) is the record of its virtual
  methods.  `const` methods without arguments are fields, methods with arguments
  are functions.  An enumerator is the only mutable object: it carries its
  object state explicitly and `move_next` maps a state to the next one.
* `ReaderPtr` and `ReaderEnumeratorPtr` are nullable pointers: `none` is `nullptr`.
* `Maybe<T>` is `Option T`, with `Nothing` as `none`.
* Dereferencing a null pointer, unwrapping an empty `Maybe` and ending a
  value-returning function without a return statement have no defined result in
  the source; operations that may do so return `Except Fault _`.
-/

universe u v

namespace wayward.data_franca

/-! ## Types of `types.hpp` and `maybe.hpp` -/

/-- Modelled from the spec: `types.hpp` is not part of the source. The tag is the
closed enumeration `Nothing | Boolean | Integer | Real | String | List | Map`. -/
inductive DataType where
  | Nothing
  | Boolean
  | Integer
  | Real
  | String
  | List
  | Map
  deriving DecidableEq, Repr

/-- Modelled from the spec: the scalar type `Boolean` of `types.hpp`. -/
abbrev Boolean := Bool

/-- Modelled from the spec: the scalar type `Integer` of `types.hpp`. The facade only
copies integers, so no width is modelled. -/
abbrev Integer := Int

/-- Modelled from the spec: the scalar type `Real` of `types.hpp`. The facade only
copies reals and never computes with them, so a real is represented by the bit
pattern of the floating-point number. -/
structure Real where
  bits : Nat
  deriving DecidableEq, Repr

/-- Modelled from the spec: `Maybe<T>` of `maybe.hpp`, a container of zero or one
value; `Nothing` is `none`. -/
abbrev Maybe (α : Type) := Option α

/-- The ways in which an operation of the header can leave defined behaviour:
dereferencing a null pointer, unwrapping an empty `Maybe`, and reaching the end of
a value-returning function without a return statement. -/
inductive Fault where
  | null_deref
  | empty_maybe
  | no_return
  deriving DecidableEq, Repr

/-- Modelled from the spec: `Maybe<T>::operator*` of `maybe.hpp`. The spec gives the
optional no value to hand out when it is empty, so unwrapping `Nothing` is a fault. -/
def Maybe.deref {α : Type} : Maybe α → Except Fault α
  | some v => .ok v
  | none => .error Fault.empty_maybe

/-! ## The interfaces `IReader` and `IReaderEnumerator` -/

mutual
/-- The interface `IReader` (reader.hpp:22-39): one field per virtual method.
`at_` is the method `at`; `enumerator` is the fresh enumerator a call returns. -/
inductive IReader : Type 1 where
  | mk (type : DataType)
       (get_boolean : Maybe Boolean)
       (get_integer : Maybe Integer)
       (get_real : Maybe Real)
       (get_string : Maybe String)
       (has_key : String → Bool)
       (get : String → Option IReader)
       (length : Nat)
       (at_ : Nat → Option IReader)
       (enumerator : Option IReaderEnumerator)
/-- The interface `IReaderEnumerator` (reader.hpp:41-47): an object with state
`self : State` and one function of the state per virtual method; `move_next`,
the only non-const method, yields the next state. -/
inductive IReaderEnumerator : Type 1 where
  | mk (State : Type)
       (self : State)
       (current_value : State → Option IReader)
       (current_key : State → Maybe String)
       (at_end : State → Bool)
       (move_next : State → State)
end

/-- The pointer type `ReaderPtr`; `none` is `nullptr`. -/
abbrev ReaderPtr := Option IReader

/-- The pointer type `ReaderEnumeratorPtr` (reader.hpp:16); `none` is `nullptr`. -/
abbrev ReaderEnumeratorPtr := Option IReaderEnumerator

namespace IReader

/-- Method `type()`. -/
def type : IReader → DataType
  | mk t _ _ _ _ _ _ _ _ _ => t

/-- Method `get_boolean()`. -/
def get_boolean : IReader → Maybe Boolean
  | mk _ b _ _ _ _ _ _ _ _ => b

/-- Method `get_integer()`. -/
def get_integer : IReader → Maybe Integer
  | mk _ _ n _ _ _ _ _ _ _ => n

/-- Method `get_real()`. -/
def get_real : IReader → Maybe Real
  | mk _ _ _ r _ _ _ _ _ _ => r

/-- Method `get_string()`. -/
def get_string : IReader → Maybe String
  | mk _ _ _ _ s _ _ _ _ _ => s

/-- Method `has_key(key)`. -/
def has_key : IReader → String → Bool
  | mk _ _ _ _ _ h _ _ _ _ => h

/-- Method `get(key)`. -/
def get : IReader → String → ReaderPtr
  | mk _ _ _ _ _ _ g _ _ _ => g

/-- Method `length()`. -/
def length : IReader → Nat
  | mk _ _ _ _ _ _ _ l _ _ => l

/-- Method `at(idx)`. -/
def at_ : IReader → Nat → ReaderPtr
  | mk _ _ _ _ _ _ _ _ a _ => a

/-- Method `enumerator()`. -/
def enumerator : IReader → ReaderEnumeratorPtr
  | mk _ _ _ _ _ _ _ _ _ e => e

end IReader

namespace IReaderEnumerator

/-- Method `current_value()` on the current state. -/
def current_value : IReaderEnumerator → ReaderPtr
  | mk _ s cv _ _ _ => cv s

/-- Method `current_key()` on the current state. -/
def current_key : IReaderEnumerator → Maybe String
  | mk _ s _ ck _ _ => ck s

/-- Method `at_end()` on the current state. -/
def at_end : IReaderEnumerator → Bool
  | mk _ s _ _ ae _ => ae s

/-- Method `move_next()`: the same object with its state advanced once. -/
def move_next : IReaderEnumerator → IReaderEnumerator
  | mk S s cv ck ae mn => mk S (mn s) cv ck ae mn

/-- The enumerator after `n` calls of `move_next()`. -/
def move_next_n : Nat → IReaderEnumerator → IReaderEnumerator
  | 0, e => e
  | n + 1, e => move_next_n n (move_next e)

end IReaderEnumerator

/-! ## The null objects -/

/-- The struct `NullReader` (reader.hpp:49-61). -/
def NullReader : IReader :=
  IReader.mk
    DataType.Nothing      -- type()
    none                  -- get_boolean()
    none                  -- get_integer()
    none                  -- get_real()
    none                  -- get_string()
    (fun _ => false)      -- has_key(key)
    (fun _ => none)       -- get(key): nullptr
    0                     -- length()
    (fun _ => none)       -- at(idx): nullptr
    none                  -- enumerator(): nullptr

/-- The extra method `NullReader::keys()` (reader.hpp:56). -/
def NullReader.keys : List String := []

/-- The struct `ReaderEnumeratorAtEnd` (reader.hpp:63-68): an object without data
members, whose `move_next()` has an empty body. -/
def ReaderEnumeratorAtEnd : IReaderEnumerator :=
  IReaderEnumerator.mk Unit ()
    (fun _ => none)       -- current_value(): nullptr
    (fun _ => none)       -- current_key(): Nothing
    (fun _ => true)       -- at_end()
    (fun s => s)          -- move_next() {}

/-! ## The facade `ReaderInterface<Self, Subscript>` -/

/-- What the facade needs of `Self` (reader.hpp:89-91): the member `reader_iface()`,
whose result the facade uses as an `IReader`. -/
class ReaderHandle (Self : Type u) where
  reader_iface : Self → IReader

/-- What the facade needs of `Subscript` (reader.hpp:168, 173) and the iterator of
`Self` (reader.hpp:103, 105): construction from a `ReaderPtr`. -/
class FromReaderPtr (T : Type u) where
  from_ptr : ReaderPtr → T

namespace ReaderInterface

variable {Self : Type u} {Subscript : Type v}

/-- The private accessor `reader()` (reader.hpp:89-91). -/
def reader [ReaderHandle Self] (self : Self) : IReader :=
  ReaderHandle.reader_iface self

/-- The member `is_nothing()` (reader.hpp:115-118). -/
def is_nothing [ReaderHandle Self] (self : Self) : Bool :=
  decide ((reader self).type = DataType.Nothing)

/-- The conversion `operator bool()` (reader.hpp:120-123). -/
def to_bool [ReaderHandle Self] (self : Self) : Bool :=
  !(is_nothing self)

/-- The extraction `operator>>(Boolean& b)` (reader.hpp:125-132). The argument is
the destination before the call; the result is the returned flag and the
destination after the call. The facade has no member `type()`: the unqualified
call is read as `reader().type()`, as `is_nothing()` spells it. -/
def shr_boolean [ReaderHandle Self] (self : Self) (b : Boolean) :
    Except Fault (Bool × Boolean) :=
  if (reader self).type = DataType.Boolean then do
    let v ← Maybe.deref (reader self).get_boolean
    pure (true, v)
  else
    pure (false, b)

/-- The extraction `operator>>(Integer& n)` (reader.hpp:134-141). -/
def shr_integer [ReaderHandle Self] (self : Self) (n : Integer) :
    Except Fault (Bool × Integer) :=
  if (reader self).type = DataType.Integer then do
    let v ← Maybe.deref (reader self).get_integer
    pure (true, v)
  else
    pure (false, n)

/-- The extraction `operator>>(Real& r)` (reader.hpp:143-150). -/
def shr_real [ReaderHandle Self] (self : Self) (r : Real) :
    Except Fault (Bool × Real) :=
  if (reader self).type = DataType.Real then do
    let v ← Maybe.deref (reader self).get_real
    pure (true, v)
  else
    pure (false, r)

/-- The extraction `operator>>(String& str)` (reader.hpp:152-159). -/
def shr_string [ReaderHandle Self] (self : Self) (str : String) :
    Except Fault (Bool × String) :=
  if (reader self).type = DataType.String then do
    let v ← Maybe.deref (reader self).get_string
    pure (true, v)
  else
    pure (false, str)

/-- The member `length()` (reader.hpp:161-164). -/
def length [ReaderHandle Self] (self : Self) : Nat :=
  (reader self).length

/-- The subscript `operator[](size_t idx)` (reader.hpp:166-169). -/
def subscript_idx [ReaderHandle Self] [FromReaderPtr Subscript] (self : Self) (idx : Nat) :
    Subscript :=
  FromReaderPtr.from_ptr ((reader self).at_ idx)

/-- The subscript `operator[](const String& key)` (reader.hpp:171-174). -/
def subscript_key [ReaderHandle Self] [FromReaderPtr Subscript] (self : Self) (key : String) :
    Subscript :=
  FromReaderPtr.from_ptr ((reader self).get key)

/-- The nested struct `ReaderInterface<Self, Subscript>::iterator` (reader.hpp:94-108):
its two data members. -/
structure iterator (Self : Type u) where
  enumerator_ : ReaderEnumeratorPtr
  current_ : Self

namespace iterator

/-- The constructor `iterator(ReaderEnumeratorPtr e)` (reader.hpp:105): `enumerator_`
takes the pointer, then `current_` is built from `enumerator_->current_value()`,
which dereferences the pointer without a test. -/
def make [FromReaderPtr Self] (e : ReaderEnumeratorPtr) : Except Fault (iterator Self) :=
  match e with
  | some en => .ok ⟨some en, FromReaderPtr.from_ptr en.current_value⟩
  | none => .error Fault.null_deref

/-- The comparison `operator==` (reader.hpp:96-98): true when both pointers are null;
otherwise both pointers are dereferenced and the two `at_end()` flags compared. -/
def eq (a b : iterator Self) : Except Fault Bool :=
  if a.enumerator_.isNone && b.enumerator_.isNone then
    .ok true
  else
    match a.enumerator_, b.enumerator_ with
    | some ea, some eb => .ok (ea.at_end == eb.at_end)
    | _, _ => .error Fault.null_deref

/-- The dereference `operator*` (reader.hpp:100). -/
def deref (a : iterator Self) : Self :=
  a.current_

/-- The comparison `operator!=` (reader.hpp:99). Its body is the expression statement
`!(*this == other);`: the comparison is evaluated, its negation is dropped, and
the function ends without a return statement, so no value is returned. -/
def ne (a b : iterator Self) : Except Fault Bool :=
  match eq a b with
  | .error f => .error f
  | .ok _ => .error Fault.no_return

/-- The increment `operator++` (reader.hpp:103): `enumerator_->move_next()`, then
`current_` is rebuilt from the enumerator's current value. The source names the
member `enumerator_->current_value` without the call parentheses; it is read as
the call `enumerator_->current_value()`, as the constructor spells it. -/
def incr [FromReaderPtr Self] (a : iterator Self) : Except Fault (iterator Self) :=
  match a.enumerator_ with
  | some en => .ok ⟨some en.move_next, FromReaderPtr.from_ptr en.move_next.current_value⟩
  | none => .error Fault.null_deref

/-- The iterator after `n` increments. -/
def incr_n [FromReaderPtr Self] : Nat → iterator Self → Except Fault (iterator Self)
  | 0, a => .ok a
  | n + 1, a =>
    match incr a with
    | .error f => .error f
    | .ok a2 => incr_n n a2

end iterator

/-- Modelled from the spec: `begin()` is declared (reader.hpp:82) but the source has
no definition of it. The spec has it construct a forward iterator backed by an
enumerator, and has the iteration of a Null Reader or of any childless node give
`begin() == end()` immediately: the iterator is constructed from the enumerator of
the handle's reader, and from the At-End Enumerator when the reader hands out no
enumerator (the null pointer that `NullReader::enumerator()` returns). -/
def begin [ReaderHandle Self] [FromReaderPtr Self] (self : Self) :
    Except Fault (iterator Self) :=
  match (reader self).enumerator with
  | some e => iterator.make (some e)
  | none => iterator.make (some ReaderEnumeratorAtEnd)

/-- Modelled from the spec: `end()` is declared (reader.hpp:83) but the source has no
definition of it. The spec has it construct a forward iterator backed by an
enumerator, and names the At-End Enumerator as the canonical exhausted one: the
iterator constructed from a `ReaderEnumeratorAtEnd`. -/
def end_ [ReaderHandle Self] [FromReaderPtr Self] (_self : Self) :
    Except Fault (iterator Self) :=
  iterator.make (some ReaderEnumeratorAtEnd)

/-- The test `begin() == end()` on one handle. -/
def begin_eq_end [ReaderHandle Self] [FromReaderPtr Self] (self : Self) : Except Fault Bool :=
  match begin self with
  | .error f => .error f
  | .ok b =>
    match end_ self with
    | .error f => .error f
    | .ok e => iterator.eq b e

end ReaderInterface

/-! ## A concrete handle -/

/-- Modelled from the spec: the concrete handle types deriving from the facade are
not part of the source. The spec has a handle wrap one reader, has subscripting
wrap the obtained sub-reader in a new handle, and has an absent sub-reader give a
handle that is Null-Reader-equivalent with `is_nothing()` true: the handle holds
the `ReaderPtr` it was built from (the member `q_` that reader.hpp:112 tests) and
its `reader_iface()` presents a null pointer as the Null Reader. -/
structure Handle where
  q_ : ReaderPtr

/-- Modelled from the spec: `Handle::reader_iface()`, see `Handle`. -/
def Handle.reader_iface (h : Handle) : IReader :=
  match h.q_ with
  | some r => r
  | none => NullReader

/-- The member `is_null()` (reader.hpp:110-113) on the concrete handle. -/
def Handle.is_null (h : Handle) : Bool :=
  h.q_.isNone

instance : ReaderHandle Handle := ⟨Handle.reader_iface⟩

instance : FromReaderPtr Handle := ⟨Handle.mk⟩

/-- One navigation step: a subscript by key or by index. -/
inductive Step where
  | key (k : String)
  | idx (i : Nat)

/-- One subscript on a handle, `h[k]` or `h[i]`. -/
def Handle.step (h : Handle) : Step → Handle
  | Step.key k => ReaderInterface.subscript_key h k
  | Step.idx i => ReaderInterface.subscript_idx h i

/-- A chain of subscripts `h[s1][s2]...[sn]`. -/
def Handle.navigate (h : Handle) : List Step → Handle
  | [] => h
  | s :: rest => Handle.navigate (h.step s) rest

/-! ## Example readers -/

/-- A reader over the Boolean `b`. -/
def booleanReader (b : Boolean) : IReader :=
  IReader.mk DataType.Boolean (some b) none none none
    (fun _ => false) (fun _ => none) 0 (fun _ => none) (some ReaderEnumeratorAtEnd)

/-- A reader over the Integer `n`. -/
def integerReader (n : Integer) : IReader :=
  IReader.mk DataType.Integer none (some n) none none
    (fun _ => false) (fun _ => none) 0 (fun _ => none) (some ReaderEnumeratorAtEnd)

/-- A reader over the Real `x`. -/
def realReader (x : Real) : IReader :=
  IReader.mk DataType.Real none none (some x) none
    (fun _ => false) (fun _ => none) 0 (fun _ => none) (some ReaderEnumeratorAtEnd)

/-- A reader over the String `s`. -/
def stringReader (s : String) : IReader :=
  IReader.mk DataType.String none none none (some s)
    (fun _ => false) (fun _ => none) 0 (fun _ => none) (some ReaderEnumeratorAtEnd)

/-- An enumerator over the list `xs`, positioned at index `i`: the state is the
position, exhausted once it reaches the length. -/
def listEnumeratorFrom (xs : List IReader) (i : Nat) : IReaderEnumerator :=
  IReaderEnumerator.mk Nat i
    (fun j => xs.get? j)
    (fun _ => none)
    (fun j => decide (xs.length ≤ j))
    (fun j => if j < xs.length then j + 1 else j)

/-- A reader over the list `xs`. -/
def listReader (xs : List IReader) : IReader :=
  IReader.mk DataType.List none none none none
    (fun _ => false) (fun _ => none) xs.length (fun j => xs.get? j)
    (some (listEnumeratorFrom xs 0))

/-- The list `[10, 20, 30]`. -/
def list123 : List IReader :=
  [integerReader 10, integerReader 20, integerReader 30]

/-- The list `[true]`. -/
def listT : List IReader :=
  [booleanReader true]

/-- An iterator over `[10, 20, 30]` at its first element. -/
def itFirst : ReaderInterface.iterator Handle :=
  ⟨some (listEnumeratorFrom list123 0), Handle.mk (some (integerReader 10))⟩

/-- An iterator over `[10, 20, 30]` advanced twice, at its third element. -/
def itThird : ReaderInterface.iterator Handle :=
  ⟨some (IReaderEnumerator.move_next_n 2 (listEnumeratorFrom list123 0)),
    Handle.mk (some (integerReader 30))⟩

/-- An iterator over the other list `[true]`, at its only element. -/
def itOther : ReaderInterface.iterator Handle :=
  ⟨some (listEnumeratorFrom listT 0), Handle.mk (some (booleanReader true))⟩

/-- An iterator on the At-End Enumerator. -/
def itEnd : ReaderInterface.iterator Handle :=
  ⟨some ReaderEnumeratorAtEnd, Handle.mk none⟩

/-- A handle over the Integer 42. -/
def hInt42 : Handle := Handle.mk (some (integerReader 42))

/-- A handle over the Real with bit pattern 5. -/
def hReal5 : Handle := Handle.mk (some (realReader ⟨5⟩))

/-- A handle over the Boolean `true`. -/
def hTrue : Handle := Handle.mk (some (booleanReader true))

/-- A handle over the String `"abc"`. -/
def hAbc : Handle := Handle.mk (some (stringReader "abc"))

/-- A handle over a Null Reader object. -/
def hNull : Handle := Handle.mk (some NullReader)

/-- A reader over the empty Map. -/
def emptyMapReader : IReader :=
  IReader.mk DataType.Map none none none none
    (fun _ => false) (fun _ => none) 0 (fun _ => none) (some ReaderEnumeratorAtEnd)

/-- A handle over the list `[10, 20, 30]`. -/
def hList123 : Handle := Handle.mk (some (listReader list123))

/-- A reader that reports the type Integer while its `get_integer()` is absent. -/
def hollowIntegerReader : IReader :=
  IReader.mk DataType.Integer none none none none
    (fun _ => false) (fun _ => none) 0 (fun _ => none) (some ReaderEnumeratorAtEnd)

/-- A handle over the reader of type Integer without an integer. -/
def hHollow : Handle := Handle.mk (some hollowIntegerReader)

/-- An iterator whose enumerator pointer is null, as a moved-from iterator is. -/
def itNull : ReaderInterface.iterator Handle :=
  ⟨none, Handle.mk none⟩

/-! ## Typed extraction -/

namespace ReaderInterface

variable {Self : Type u}

/-- The Boolean extraction on a reader of another type. -/
theorem shr_boolean_of_ne [ReaderHandle Self] (self : Self) (b : Boolean)
    (h : (reader self).type ≠ DataType.Boolean) : shr_boolean self b = .ok (false, b) := by
  unfold shr_boolean
  rw [if_neg h]
  rfl

/-- The Integer extraction on a reader of another type. -/
theorem shr_integer_of_ne [ReaderHandle Self] (self : Self) (n : Integer)
    (h : (reader self).type ≠ DataType.Integer) : shr_integer self n = .ok (false, n) := by
  unfold shr_integer
  rw [if_neg h]
  rfl

/-- The Real extraction on a reader of another type. -/
theorem shr_real_of_ne [ReaderHandle Self] (self : Self) (x : Real)
    (h : (reader self).type ≠ DataType.Real) : shr_real self x = .ok (false, x) := by
  unfold shr_real
  rw [if_neg h]
  rfl

/-- The String extraction on a reader of another type. -/
theorem shr_string_of_ne [ReaderHandle Self] (self : Self) (s : String)
    (h : (reader self).type ≠ DataType.String) : shr_string self s = .ok (false, s) := by
  unfold shr_string
  rw [if_neg h]
  rfl

/-- The Boolean extraction on a Boolean reader that holds `v`. -/
theorem shr_boolean_of_eq [ReaderHandle Self] (self : Self) (b v : Boolean)
    (h : (reader self).type = DataType.Boolean) (hv : (reader self).get_boolean = some v) :
    shr_boolean self b = .ok (true, v) := by
  unfold shr_boolean
  rw [if_pos h, hv]
  rfl

/-- The Integer extraction on an Integer reader that holds `v`. -/
theorem shr_integer_of_eq [ReaderHandle Self] (self : Self) (n v : Integer)
    (h : (reader self).type = DataType.Integer) (hv : (reader self).get_integer = some v) :
    shr_integer self n = .ok (true, v) := by
  unfold shr_integer
  rw [if_pos h, hv]
  rfl

/-- The Real extraction on a Real reader that holds `v`. -/
theorem shr_real_of_eq [ReaderHandle Self] (self : Self) (x v : Real)
    (h : (reader self).type = DataType.Real) (hv : (reader self).get_real = some v) :
    shr_real self x = .ok (true, v) := by
  unfold shr_real
  rw [if_pos h, hv]
  rfl

/-- The String extraction on a String reader that holds `v`. -/
theorem shr_string_of_eq [ReaderHandle Self] (self : Self) (s v : String)
    (h : (reader self).type = DataType.String) (hv : (reader self).get_string = some v) :
    shr_string self s = .ok (true, v) := by
  unfold shr_string
  rw [if_pos h, hv]
  rfl

/-- C1: on a type mismatch the typed extraction returns false and leaves the
destination as it was. For every handle, whatever its reader's `get_K()` return: if
the reader's type is not Boolean (Integer, Real, String) then extracting a Boolean
(Integer, Real, String) into a destination holding `d` returns false with the
destination still `d`; in particular an Integer reader fails the Real extraction
and a Real reader fails the Integer extraction. -/
theorem shr_type_mismatch [ReaderHandle Self] (self : Self)
    (b : Boolean) (n : Integer) (x : Real) (s : String) :
    ((reader self).type ≠ DataType.Boolean → shr_boolean self b = .ok (false, b)) ∧
    ((reader self).type ≠ DataType.Integer → shr_integer self n = .ok (false, n)) ∧
    ((reader self).type ≠ DataType.Real → shr_real self x = .ok (false, x)) ∧
    ((reader self).type ≠ DataType.String → shr_string self s = .ok (false, s)) ∧
    ((reader self).type = DataType.Integer → shr_real self x = .ok (false, x)) ∧
    ((reader self).type = DataType.Real → shr_integer self n = .ok (false, n)) := by
  refine ⟨shr_boolean_of_ne self b, shr_integer_of_ne self n, shr_real_of_ne self x,
    shr_string_of_ne self s, ?_, ?_⟩
  · intro h
    exact shr_real_of_ne self x (by rw [h]; decide)
  · intro h
    exact shr_integer_of_ne self n (by rw [h]; decide)

/-- Witness of C1 on a handle over the Integer 42 (Boolean, Real and String
destinations) and on a handle over a Real (Integer destination). -/
theorem shr_type_mismatch_witness :
    (shr_boolean hInt42 true = .ok (false, true) ∧
      shr_real hInt42 ⟨7⟩ = .ok (false, ⟨7⟩) ∧
      shr_string hInt42 "d" = .ok (false, "d")) ∧
    (shr_integer hReal5 7 = .ok (false, 7) ∧
      shr_boolean hReal5 false = .ok (false, false)) ∧
    (shr_real hInt42 ⟨7⟩ = .ok (false, ⟨7⟩) ∧ shr_integer hReal5 7 = .ok (false, 7)) :=
  ⟨⟨(shr_type_mismatch hInt42 true 7 ⟨7⟩ "d").1 (by decide),
      (shr_type_mismatch hInt42 true 7 ⟨7⟩ "d").2.2.1 (by decide),
      (shr_type_mismatch hInt42 true 7 ⟨7⟩ "d").2.2.2.1 (by decide)⟩,
    ⟨(shr_type_mismatch hReal5 false 7 ⟨7⟩ "d").2.1 (by decide),
      (shr_type_mismatch hReal5 false 7 ⟨7⟩ "d").1 (by decide)⟩,
    ⟨(shr_type_mismatch hInt42 true 7 ⟨7⟩ "d").2.2.2.2.1 (by decide),
      (shr_type_mismatch hReal5 false 7 ⟨7⟩ "d").2.2.2.2.2 (by decide)⟩⟩

/-- The Boolean extraction returns true only on a Boolean reader, and then with the reader's
value in the destination. -/
theorem shr_boolean_true_only_if [ReaderHandle Self] (self : Self) (b out : Boolean)
    (h : shr_boolean self b = .ok (true, out)) :
    (reader self).type = DataType.Boolean ∧ (reader self).get_boolean = some out := by
  by_cases ht : (reader self).type = DataType.Boolean
  · cases hv : (reader self).get_boolean with
    | none =>
      simp [shr_boolean, ht, hv, Maybe.deref, bind, Except.bind] at h
    | some w =>
      rw [shr_boolean_of_eq self b w ht hv] at h
      injection h with h
      injection h with _ h
      exact ⟨ht, by rw [h]⟩
  · rw [shr_boolean_of_ne self b ht] at h
    injection h with h
    injection h with h _
    cases h

/-- The Integer extraction returns true only on a Integer reader, and then with the reader's
value in the destination. -/
theorem shr_integer_true_only_if [ReaderHandle Self] (self : Self) (n out : Integer)
    (h : shr_integer self n = .ok (true, out)) :
    (reader self).type = DataType.Integer ∧ (reader self).get_integer = some out := by
  by_cases ht : (reader self).type = DataType.Integer
  · cases hv : (reader self).get_integer with
    | none =>
      simp [shr_integer, ht, hv, Maybe.deref, bind, Except.bind] at h
    | some w =>
      rw [shr_integer_of_eq self n w ht hv] at h
      injection h with h
      injection h with _ h
      exact ⟨ht, by rw [h]⟩
  · rw [shr_integer_of_ne self n ht] at h
    injection h with h
    injection h with h _
    cases h

/-- The Real extraction returns true only on a Real reader, and then with the reader's
value in the destination. -/
theorem shr_real_true_only_if [ReaderHandle Self] (self : Self) (x out : Real)
    (h : shr_real self x = .ok (true, out)) :
    (reader self).type = DataType.Real ∧ (reader self).get_real = some out := by
  by_cases ht : (reader self).type = DataType.Real
  · cases hv : (reader self).get_real with
    | none =>
      simp [shr_real, ht, hv, Maybe.deref, bind, Except.bind] at h
    | some w =>
      rw [shr_real_of_eq self x w ht hv] at h
      injection h with h
      injection h with _ h
      exact ⟨ht, by rw [h]⟩
  · rw [shr_real_of_ne self x ht] at h
    injection h with h
    injection h with h _
    cases h

/-- The String extraction returns true only on a String reader, and then with the reader's
value in the destination. -/
theorem shr_string_true_only_if [ReaderHandle Self] (self : Self) (s out : String)
    (h : shr_string self s = .ok (true, out)) :
    (reader self).type = DataType.String ∧ (reader self).get_string = some out := by
  by_cases ht : (reader self).type = DataType.String
  · cases hv : (reader self).get_string with
    | none =>
      simp [shr_string, ht, hv, Maybe.deref, bind, Except.bind] at h
    | some w =>
      rw [shr_string_of_eq self s w ht hv] at h
      injection h with h
      injection h with _ h
      exact ⟨ht, by rw [h]⟩
  · rw [shr_string_of_ne self s ht] at h
    injection h with h
    injection h with h _
    cases h

/-- C2: on an exact type match the typed extraction returns true with the reader's
value in the destination. For every handle and each scalar kind K: a reader of type
K whose `get_K()` holds `v` makes the extraction for K return true with the
destination equal to `v`; the extraction for K returns true only if the reader's
type is K, for every reader and with no condition on `get_K()`, and then the
destination holds the value of `get_K()`; so for every reader whose `get_K()` holds
a value whenever its type is K, among them every reader of another type, the
extraction for K returns true if and only if the reader's type is K. -/
theorem shr_exact_match [ReaderHandle Self] (self : Self)
    (b vb : Boolean) (n vn : Integer) (x vx : Real) (s vs : String) :
    (((reader self).type = DataType.Boolean → (reader self).get_boolean = some vb →
        shr_boolean self b = .ok (true, vb)) ∧
      (∀ out, shr_boolean self b = .ok (true, out) →
        (reader self).type = DataType.Boolean ∧ (reader self).get_boolean = some out) ∧
      (((reader self).type = DataType.Boolean → ∃ w, (reader self).get_boolean = some w) →
        ((∃ out, shr_boolean self b = .ok (true, out)) ↔
          (reader self).type = DataType.Boolean))) ∧
    (((reader self).type = DataType.Integer → (reader self).get_integer = some vn →
        shr_integer self n = .ok (true, vn)) ∧
      (∀ out, shr_integer self n = .ok (true, out) →
        (reader self).type = DataType.Integer ∧ (reader self).get_integer = some out) ∧
      (((reader self).type = DataType.Integer → ∃ w, (reader self).get_integer = some w) →
        ((∃ out, shr_integer self n = .ok (true, out)) ↔
          (reader self).type = DataType.Integer))) ∧
    (((reader self).type = DataType.Real → (reader self).get_real = some vx →
        shr_real self x = .ok (true, vx)) ∧
      (∀ out, shr_real self x = .ok (true, out) →
        (reader self).type = DataType.Real ∧ (reader self).get_real = some out) ∧
      (((reader self).type = DataType.Real → ∃ w, (reader self).get_real = some w) →
        ((∃ out, shr_real self x = .ok (true, out)) ↔
          (reader self).type = DataType.Real))) ∧
    (((reader self).type = DataType.String → (reader self).get_string = some vs →
        shr_string self s = .ok (true, vs)) ∧
      (∀ out, shr_string self s = .ok (true, out) →
        (reader self).type = DataType.String ∧ (reader self).get_string = some out) ∧
      (((reader self).type = DataType.String → ∃ w, (reader self).get_string = some w) →
        ((∃ out, shr_string self s = .ok (true, out)) ↔
          (reader self).type = DataType.String))) :=
  ⟨⟨fun h hv => shr_boolean_of_eq self b vb h hv,
      fun out h => shr_boolean_true_only_if self b out h,
      fun hp => ⟨fun ⟨out, h⟩ => (shr_boolean_true_only_if self b out h).1,
        fun h => (hp h).elim fun w hw => ⟨w, shr_boolean_of_eq self b w h hw⟩⟩⟩,
    ⟨fun h hv => shr_integer_of_eq self n vn h hv,
      fun out h => shr_integer_true_only_if self n out h,
      fun hp => ⟨fun ⟨out, h⟩ => (shr_integer_true_only_if self n out h).1,
        fun h => (hp h).elim fun w hw => ⟨w, shr_integer_of_eq self n w h hw⟩⟩⟩,
    ⟨fun h hv => shr_real_of_eq self x vx h hv,
      fun out h => shr_real_true_only_if self x out h,
      fun hp => ⟨fun ⟨out, h⟩ => (shr_real_true_only_if self x out h).1,
        fun h => (hp h).elim fun w hw => ⟨w, shr_real_of_eq self x w h hw⟩⟩⟩,
    ⟨fun h hv => shr_string_of_eq self s vs h hv,
      fun out h => shr_string_true_only_if self s out h,
      fun hp => ⟨fun ⟨out, h⟩ => (shr_string_true_only_if self s out h).1,
        fun h => (hp h).elim fun w hw => ⟨w, shr_string_of_eq self s w h hw⟩⟩⟩⟩

/-- Witness of C2: the handle over the Integer 42 yields true and 42, and likewise one
handle per other scalar kind; the Integer extraction does not return true on the
Boolean handle, nor the Real extraction on the Integer handle. -/
theorem shr_exact_match_witness :
    (shr_integer hInt42 0 = .ok (true, 42) ∧
      shr_boolean hTrue false = .ok (true, true) ∧
      shr_real hReal5 ⟨0⟩ = .ok (true, ⟨5⟩) ∧
      shr_string hAbc "" = .ok (true, "abc")) ∧
    ((¬ ∃ out, shr_integer hTrue 0 = .ok (true, out)) ∧
      (¬ ∃ out, shr_real hInt42 ⟨0⟩ = .ok (true, out)) ∧
      (¬ ∃ out, shr_integer hReal5 0 = .ok (true, out)) ∧
      (¬ ∃ out, shr_boolean hAbc false = .ok (true, out)) ∧
      (¬ ∃ out, shr_string hInt42 "" = .ok (true, out))) ∧
    ((∃ out, shr_integer hInt42 0 = .ok (true, out)) ↔
      (reader hInt42).type = DataType.Integer) :=
  ⟨⟨(shr_exact_match hInt42 false true 0 42 ⟨0⟩ ⟨5⟩ "" "abc").2.1.1 rfl rfl,
      (shr_exact_match hTrue false true 0 42 ⟨0⟩ ⟨5⟩ "" "abc").1.1 rfl rfl,
      (shr_exact_match hReal5 false true 0 42 ⟨0⟩ ⟨5⟩ "" "abc").2.2.1.1 rfl rfl,
      (shr_exact_match hAbc false true 0 42 ⟨0⟩ ⟨5⟩ "" "abc").2.2.2.1 rfl rfl⟩,
    ⟨fun hp => absurd (((shr_exact_match hTrue false true 0 42 ⟨0⟩ ⟨5⟩ "" "abc").2.1.2.2
        (fun h => absurd h (by decide))).mp hp) (by decide),
      fun hp => absurd (((shr_exact_match hInt42 false true 0 42 ⟨0⟩ ⟨5⟩ "" "abc").2.2.1.2.2
        (fun h => absurd h (by decide))).mp hp) (by decide),
      fun hp => absurd (((shr_exact_match hReal5 false true 0 42 ⟨0⟩ ⟨5⟩ "" "abc").2.1.2.2
        (fun h => absurd h (by decide))).mp hp) (by decide),
      fun hp => absurd (((shr_exact_match hAbc false true 0 42 ⟨0⟩ ⟨5⟩ "" "abc").1.2.2
        (fun h => absurd h (by decide))).mp hp) (by decide),
      fun hp => absurd (((shr_exact_match hInt42 false true 0 42 ⟨0⟩ ⟨5⟩ "" "abc").2.2.2.2.2
        (fun h => absurd h (by decide))).mp hp) (by decide)⟩,
    (shr_exact_match hInt42 false true 0 42 ⟨0⟩ ⟨5⟩ "" "abc").2.1.2.2 (fun _ => ⟨42, rfl⟩)⟩

/-! ## The Null Reader -/

/-- C3: the Null Reader answers every query with the absent or empty result: its type
is Nothing, its four scalar getters are absent, `has_key(k)` is false for every key
and its length is 0. A handle whose reader is a Null Reader has `is_nothing()` true,
converts to boolean false, and fails all four typed extractions, the destinations
left as they were. -/
theorem null_reader_answers [ReaderHandle Self] (self : Self) (h : reader self = NullReader)
    (k : String) (b : Boolean) (n : Integer) (x : Real) (s : String) :
    (NullReader.type = DataType.Nothing ∧
      NullReader.get_boolean = none ∧ NullReader.get_integer = none ∧
      NullReader.get_real = none ∧ NullReader.get_string = none ∧
      NullReader.has_key k = false ∧ NullReader.length = 0) ∧
    (is_nothing self = true ∧ to_bool self = false) ∧
    (shr_boolean self b = .ok (false, b) ∧ shr_integer self n = .ok (false, n) ∧
      shr_real self x = .ok (false, x) ∧ shr_string self s = .ok (false, s)) := by
  have ht : (reader self).type = DataType.Nothing := by rw [h]; rfl
  refine ⟨⟨rfl, rfl, rfl, rfl, rfl, rfl, rfl⟩, ⟨?_, ?_⟩, ?_, ?_, ?_, ?_⟩
  · simp [is_nothing, ht]
  · simp [to_bool, is_nothing, ht]
  · exact shr_boolean_of_ne self b (by rw [ht]; decide)
  · exact shr_integer_of_ne self n (by rw [ht]; decide)
  · exact shr_real_of_ne self x (by rw [ht]; decide)
  · exact shr_string_of_ne self s (by rw [ht]; decide)

/-- Witness of C3 on the handle over a Null Reader object. -/
theorem null_reader_answers_witness :
    reader hNull = NullReader ∧ is_nothing hNull = true ∧ to_bool hNull = false ∧
    shr_integer hNull 9 = .ok (false, 9) :=
  ⟨rfl, (null_reader_answers hNull rfl "x" true 9 ⟨1⟩ "d").2.1.1,
    (null_reader_answers hNull rfl "x" true 9 ⟨1⟩ "d").2.1.2,
    (null_reader_answers hNull rfl "x" true 9 ⟨1⟩ "d").2.2.2.1⟩

end ReaderInterface

/-! ## Navigation from the Null Reader -/

/-- A handle built from the null pointer presents the Null Reader. -/
theorem Handle.reader_of_null : ReaderInterface.reader (Handle.mk none) = NullReader :=
  rfl

/-- One subscript on a handle over a Null Reader gives a handle over a Null Reader. -/
theorem Handle.reader_step_of_null (h : Handle) (hn : ReaderInterface.reader h = NullReader)
    (s : Step) : ReaderInterface.reader (h.step s) = NullReader := by
  cases s with
  | key k =>
    show ReaderInterface.reader (Handle.mk ((ReaderInterface.reader h).get k)) = NullReader
    rw [hn]
    rfl
  | idx i =>
    show ReaderInterface.reader (Handle.mk ((ReaderInterface.reader h).at_ i)) = NullReader
    rw [hn]
    rfl

/-- Every chain of subscripts from a handle over a Null Reader ends on a handle over
a Null Reader. -/
theorem Handle.reader_navigate_of_null (path : List Step) :
    ∀ h : Handle, ReaderInterface.reader h = NullReader →
      ReaderInterface.reader (h.navigate path) = NullReader := by
  induction path with
  | nil => intro h hn; exact hn
  | cons s rest ih =>
    intro h hn
    exact ih (h.step s) (Handle.reader_step_of_null h hn s)

/-- C4, as stated, fails: `NullReader.get("a")` and `NullReader.at(0)` are the null
pointer, so neither is a reader whose `type()` is Nothing. -/
theorem null_reader_get_at_no_reader :
    (¬ ∃ r : IReader, NullReader.get "a" = some r ∧ r.type = DataType.Nothing) ∧
    (¬ ∃ r : IReader, NullReader.at_ 0 = some r ∧ r.type = DataType.Nothing) := by
  constructor
  · rintro ⟨r, hr, _⟩
    cases hr
  · rintro ⟨r, hr, _⟩
    cases hr

/-- C4, amended: for every key and index `NullReader.get(k)` and `NullReader.at(i)`
return the null reader pointer; the handle obtained by subscripting a handle over a
Null Reader presents that pointer as the Null Reader, so its `is_nothing()` is true,
and every chain of subscripts starting at a handle over a Null Reader ends on a
handle whose `is_nothing()` is true. -/
theorem null_reader_navigation (h : Handle) (hn : ReaderInterface.reader h = NullReader)
    (k : String) (i : Nat) (path : List Step) :
    NullReader.get k = none ∧ NullReader.at_ i = none ∧
    ReaderInterface.is_nothing (ReaderInterface.subscript_key h k : Handle) = true ∧
    ReaderInterface.is_nothing (ReaderInterface.subscript_idx h i : Handle) = true ∧
    ReaderInterface.is_nothing (h.navigate path) = true := by
  have key : ∀ g : Handle, ReaderInterface.reader g = NullReader →
      ReaderInterface.is_nothing g = true := by
    intro g hg
    simp [ReaderInterface.is_nothing, hg, NullReader, IReader.type]
  refine ⟨rfl, rfl, ?_, ?_, ?_⟩
  · exact key _ (Handle.reader_step_of_null h hn (Step.key k))
  · exact key _ (Handle.reader_step_of_null h hn (Step.idx i))
  · exact key _ (Handle.reader_navigate_of_null path h hn)

/-- Witness of C4, amended, on the chain `h["a"]["b"][3]` from the handle over a
Null Reader object. -/
theorem null_reader_navigation_witness :
    ReaderInterface.reader hNull = NullReader ∧
    ReaderInterface.is_nothing
      (hNull.navigate [Step.key "a", Step.key "b", Step.idx 3]) = true :=
  ⟨rfl, (null_reader_navigation hNull rfl "a" 3
    [Step.key "a", Step.key "b", Step.idx 3]).2.2.2.2⟩

/-! ## The At-End Enumerator -/

/-- C5, as stated, fails: `NullReader.enumerator()` is the null pointer, so it is no
enumerator on which `at_end()` could be asked. -/
theorem null_reader_enumerator_missing :
    NullReader.enumerator = none ∧
    ¬ ∃ e : IReaderEnumerator, NullReader.enumerator = some e ∧ e.at_end = true := by
  refine ⟨rfl, ?_⟩
  rintro ⟨e, he, _⟩
  cases he

/-- C5, amended: `NullReader.enumerator()` returns the null enumerator pointer; the
exhausted enumerator that can be queried is `ReaderEnumeratorAtEnd`, on which
`at_end()` is true, `current_key()` is absent and `current_value()` is the null
reader pointer, which a handle presents as the Null Reader. -/
theorem null_reader_enumerator_null :
    NullReader.enumerator = none ∧
    ReaderEnumeratorAtEnd.at_end = true ∧
    ReaderEnumeratorAtEnd.current_key = none ∧
    ReaderEnumeratorAtEnd.current_value = none ∧
    ReaderInterface.is_nothing
      (FromReaderPtr.from_ptr ReaderEnumeratorAtEnd.current_value : Handle) = true :=
  ⟨rfl, rfl, rfl, rfl, rfl⟩

/-- Advancing the At-End Enumerator any number of times gives the same object. -/
theorem at_end_move_next_n (n : Nat) :
    IReaderEnumerator.move_next_n n ReaderEnumeratorAtEnd = ReaderEnumeratorAtEnd := by
  induction n with
  | zero => rfl
  | succ m ih =>
    show IReaderEnumerator.move_next_n m (IReaderEnumerator.move_next ReaderEnumeratorAtEnd) = _
    exact ih

/-- C6: idempotent exhaustion of the At-End Enumerator. For every `n`, after `n` calls
of `move_next()` on a `ReaderEnumeratorAtEnd` the enumerator is unchanged and
`at_end()` is true, so `at_end()` is false in no state reachable from it. -/
theorem at_end_idempotent (n : Nat) :
    IReaderEnumerator.move_next_n n ReaderEnumeratorAtEnd = ReaderEnumeratorAtEnd ∧
    IReaderEnumerator.move_next ReaderEnumeratorAtEnd = ReaderEnumeratorAtEnd ∧
    (IReaderEnumerator.move_next_n n ReaderEnumeratorAtEnd).at_end = true ∧
    (IReaderEnumerator.move_next_n n ReaderEnumeratorAtEnd).at_end ≠ false := by
  rw [at_end_move_next_n n]
  exact ⟨rfl, rfl, rfl, by decide⟩

/-- C7, as stated, fails: `current_value()` of the At-End Enumerator is the null
pointer, so it is no reader whose `type()` is Nothing. -/
theorem at_end_current_value_no_reader :
    ¬ ∃ r : IReader, ReaderEnumeratorAtEnd.current_value = some r ∧
      r.type = DataType.Nothing := by
  rintro ⟨r, hr, _⟩
  cases hr

/-- C7, amended: on a `ReaderEnumeratorAtEnd`, in every state reachable by
`move_next()`, `current_value()` returns the null reader pointer, which a handle
presents as the Null Reader (`is_nothing()` true), and `current_key()` is absent. -/
theorem at_end_no_child (n : Nat) :
    (IReaderEnumerator.move_next_n n ReaderEnumeratorAtEnd).current_value = none ∧
    (IReaderEnumerator.move_next_n n ReaderEnumeratorAtEnd).current_key = none ∧
    ReaderInterface.is_nothing (FromReaderPtr.from_ptr
      (IReaderEnumerator.move_next_n n ReaderEnumeratorAtEnd).current_value : Handle) = true := by
  rw [at_end_move_next_n n]
  exact ⟨rfl, rfl, rfl⟩

/-! ## Iteration -/

namespace ReaderInterface

variable {Self : Type u}

/-- The comparison of two iterators that both hold an enumerator. -/
theorem iterator.eq_of_some (a b : iterator Self) (ea eb : IReaderEnumerator)
    (ha : a.enumerator_ = some ea) (hb : b.enumerator_ = some eb) :
    iterator.eq a b = .ok (ea.at_end == eb.at_end) := by
  unfold iterator.eq
  rw [ha, hb]
  rfl

/-- A handle whose reader gives an enumerator that starts at end has
`begin() == end()`. -/
theorem begin_eq_end_of_at_end [ReaderHandle Self] [FromReaderPtr Self] (self : Self)
    (e : IReaderEnumerator) (he : (reader self).enumerator = some e)
    (hend : e.at_end = true) : begin_eq_end self = .ok true := by
  unfold begin_eq_end begin end_
  rw [he]
  simp only [iterator.make]
  rw [iterator.eq_of_some _ _ e ReaderEnumeratorAtEnd rfl rfl, hend]
  rfl

/-- A handle whose reader hands out no enumerator has `begin() == end()`, and its
`begin()` is the iterator on the At-End Enumerator. -/
theorem begin_eq_end_of_no_enumerator [ReaderHandle Self] [FromReaderPtr Self] (self : Self)
    (he : (reader self).enumerator = none) :
    begin self = .ok ⟨some ReaderEnumeratorAtEnd, FromReaderPtr.from_ptr none⟩ ∧
    begin_eq_end self = .ok true := by
  unfold begin_eq_end begin end_
  rw [he]
  exact ⟨rfl, rfl⟩

/-- C8: iteration over a Null Reader or a childless reader is empty. For a handle whose
reader is a Null Reader, `begin()` is the iterator on the At-End Enumerator, holding
no child, and `begin() == end()` is true at once; the same test is true at once for
every handle whose reader hands out no enumerator, and for every handle whose reader
has length 0 and an enumerator that starts at end, so the test that ends a begin/end
loop succeeds before any iteration. -/
theorem begin_eq_end_childless [ReaderHandle Self] [FromReaderPtr Self] (self : Self) :
    (reader self = NullReader →
      begin self = .ok ⟨some ReaderEnumeratorAtEnd, FromReaderPtr.from_ptr none⟩ ∧
      begin_eq_end self = .ok true) ∧
    ((reader self).enumerator = none → begin_eq_end self = .ok true) ∧
    (∀ e : IReaderEnumerator, (reader self).length = 0 →
      (reader self).enumerator = some e → e.at_end = true →
      begin self = .ok ⟨some e, FromReaderPtr.from_ptr e.current_value⟩ ∧
      begin_eq_end self = .ok true) := by
  refine ⟨?_, ?_, ?_⟩
  · intro h
    exact begin_eq_end_of_no_enumerator self (by rw [h]; rfl)
  · intro h
    exact (begin_eq_end_of_no_enumerator self h).2
  · intro e _ he hend
    refine ⟨?_, begin_eq_end_of_at_end self e he hend⟩
    unfold begin
    rw [he]
    rfl

/-- Witness of C8 on the handle over a Null Reader object, the handle built from the
null pointer, and the handles over the Integer 42 and over the empty list; the
handle over `[10, 20, 30]` has `begin() == end()` false. -/
theorem begin_eq_end_childless_witness :
    (reader hNull = NullReader ∧ begin_eq_end hNull = .ok true) ∧
    begin_eq_end (Handle.mk none) = .ok true ∧
    ((reader hInt42).length = 0 ∧ begin_eq_end hInt42 = .ok true) ∧
    ((reader (Handle.mk (some (listReader [])))).length = 0 ∧
      begin_eq_end (Handle.mk (some (listReader []))) = .ok true) ∧
    begin_eq_end hList123 = .ok false :=
  ⟨⟨rfl, ((begin_eq_end_childless hNull).1 rfl).2⟩,
    ((begin_eq_end_childless (Handle.mk none)).1 rfl).2,
    ⟨rfl, ((begin_eq_end_childless hInt42).2.2 ReaderEnumeratorAtEnd rfl rfl rfl).2⟩,
    ⟨rfl, ((begin_eq_end_childless (Handle.mk (some (listReader [])))).2.2
      (listEnumeratorFrom [] 0) rfl rfl rfl).2⟩,
    rfl⟩

/-- C9, as stated, fails: two iterators at the first element of two different lists
compare equal although neither enumerator is at end. -/
theorem iterator_eq_not_both_at_end :
    itFirst.enumerator_ = some (listEnumeratorFrom list123 0) ∧
    itOther.enumerator_ = some (listEnumeratorFrom listT 0) ∧
    iterator.eq itFirst itOther = .ok true ∧
    ¬ ((listEnumeratorFrom list123 0).at_end = true ∧
      (listEnumeratorFrom listT 0).at_end = true) := by
  refine ⟨rfl, rfl, rfl, ?_⟩
  rintro ⟨h, _⟩
  exact absurd h (by decide)

/-- C9, amended: for all iterators `a` and `b`, each backed by an enumerator, `a == b`
is true exactly when the two enumerators report the same `at_end()` value, both
exhausted or both not exhausted; nothing else of the cursors is compared. -/
theorem iterator_eq_iff_same_at_end (a b : iterator Self) (ea eb : IReaderEnumerator)
    (ha : a.enumerator_ = some ea) (hb : b.enumerator_ = some eb) :
    (iterator.eq a b = .ok true ↔ ea.at_end = eb.at_end) ∧
    (iterator.eq a b = .ok false ↔ ea.at_end ≠ eb.at_end) ∧
    (iterator.eq a b = .ok true ∨ iterator.eq a b = .ok false) := by
  rw [iterator.eq_of_some a b ea eb ha hb]
  cases ea.at_end <;> cases eb.at_end <;> simp

/-- Witness of C9, amended: two exhausted iterators are equal, an exhausted and a
positioned one are not. -/
theorem iterator_eq_iff_same_at_end_witness :
    ReaderEnumeratorAtEnd.at_end = true ∧
    (listEnumeratorFrom list123 0).at_end = false ∧
    iterator.eq itEnd itEnd = .ok true ∧
    iterator.eq itEnd itFirst = .ok false :=
  ⟨rfl, rfl,
    (iterator_eq_iff_same_at_end itEnd itEnd ReaderEnumeratorAtEnd ReaderEnumeratorAtEnd
      rfl rfl).1.mpr rfl,
    (iterator_eq_iff_same_at_end itEnd itFirst ReaderEnumeratorAtEnd
      (listEnumeratorFrom list123 0) rfl rfl).2.1.mpr (by decide)⟩

/-- C10: two non-exhausted iterators compare equal whatever their position or reader:
for all iterators `a` and `b` whose enumerators both report `at_end()` false,
`a == b` is true; and an exhausted iterator and a non-exhausted one compare unequal,
in either order. -/
theorem iterator_eq_non_exhausted (a b : iterator Self) (ea eb : IReaderEnumerator)
    (ha : a.enumerator_ = some ea) (hb : b.enumerator_ = some eb) :
    (ea.at_end = false → eb.at_end = false → iterator.eq a b = .ok true) ∧
    (ea.at_end = true → eb.at_end = false → iterator.eq a b = .ok false) ∧
    (ea.at_end = false → eb.at_end = true → iterator.eq a b = .ok false) := by
  rw [iterator.eq_of_some a b ea eb ha hb]
  refine ⟨?_, ?_, ?_⟩ <;> intro h1 h2 <;> rw [h1, h2] <;> rfl

/-- Witness of C10: iterators over different lists, and iterators over one list
advanced a different number of times, are equal; the exhausted iterator is equal
to neither. -/
theorem iterator_eq_non_exhausted_witness :
    iterator.eq itFirst itOther = .ok true ∧
    iterator.eq itFirst itThird = .ok true ∧
    iterator.eq itEnd itFirst = .ok false ∧
    iterator.eq itThird itEnd = .ok false :=
  ⟨(iterator_eq_non_exhausted itFirst itOther (listEnumeratorFrom list123 0)
      (listEnumeratorFrom listT 0) rfl rfl).1 rfl rfl,
    (iterator_eq_non_exhausted itFirst itThird (listEnumeratorFrom list123 0)
      (IReaderEnumerator.move_next_n 2 (listEnumeratorFrom list123 0)) rfl rfl).1 rfl rfl,
    (iterator_eq_non_exhausted itEnd itFirst ReaderEnumeratorAtEnd
      (listEnumeratorFrom list123 0) rfl rfl).2.1 rfl rfl,
    (iterator_eq_non_exhausted itThird itEnd
      (IReaderEnumerator.move_next_n 2 (listEnumeratorFrom list123 0))
      ReaderEnumeratorAtEnd rfl rfl).2.2 rfl rfl⟩

/-! ## Type tag, boolean conversion and delegation -/

/-- C11: `is_nothing()` and the boolean conversion depend on the type tag alone. For
every handle, `is_nothing()` is true iff the reader's type is Nothing, the boolean
conversion is true iff `is_nothing()` is false, exactly one of the two holds, and a
handle whose reader has any other type converts to true, whatever value it holds. -/
theorem is_nothing_by_type [ReaderHandle Self] (self : Self) :
    (is_nothing self = true ↔ (reader self).type = DataType.Nothing) ∧
    (to_bool self = true ↔ is_nothing self = false) ∧
    ((is_nothing self = true ∧ to_bool self = false) ∨
      (is_nothing self = false ∧ to_bool self = true)) ∧
    ((reader self).type ≠ DataType.Nothing → to_bool self = true) := by
  unfold to_bool is_nothing
  by_cases h : (reader self).type = DataType.Nothing <;> simp [h]

/-- Witness of C11: the handles over Boolean false, Integer 0, the empty String, the
empty List and the empty Map all convert to true. -/
theorem is_nothing_by_type_witness :
    to_bool (Handle.mk (some (booleanReader false))) = true ∧
    to_bool (Handle.mk (some (integerReader 0))) = true ∧
    to_bool (Handle.mk (some (stringReader ""))) = true ∧
    to_bool (Handle.mk (some (listReader []))) = true ∧
    to_bool (Handle.mk (some emptyMapReader)) = true :=
  ⟨(is_nothing_by_type (Handle.mk (some (booleanReader false)))).2.2.2 (by decide),
    (is_nothing_by_type (Handle.mk (some (integerReader 0)))).2.2.2 (by decide),
    (is_nothing_by_type (Handle.mk (some (stringReader "")))).2.2.2 (by decide),
    (is_nothing_by_type (Handle.mk (some (listReader [])))).2.2.2 (by decide),
    (is_nothing_by_type (Handle.mk (some emptyMapReader))).2.2.2 (by decide)⟩

/-- C12: subscripting and length are pure delegation. For every handle over a reader
`r`, `h[i]` is the handle built from exactly `r.at(i)`, `h[k]` the handle built from
exactly `r.get(k)`, and `h.length()` is `r.length()`; on the concrete handle the
wrapped pointer is that very pointer. The results depend on the reader and the
argument alone: two handles over the same reader, or the same handle asked again,
give equal results. -/
theorem subscript_delegates (Subscript : Type v) [ReaderHandle Self] [FromReaderPtr Subscript]
    (self other : Self) (hsame : reader self = reader other) (i : Nat) (k : String) :
    ((subscript_idx self i : Subscript) = FromReaderPtr.from_ptr ((reader self).at_ i) ∧
      (subscript_key self k : Subscript) = FromReaderPtr.from_ptr ((reader self).get k) ∧
      length self = (reader self).length) ∧
    ((subscript_idx self i : Handle).q_ = (reader self).at_ i ∧
      (subscript_key self k : Handle).q_ = (reader self).get k) ∧
    ((subscript_idx self i : Subscript) = subscript_idx other i ∧
      (subscript_key self k : Subscript) = subscript_key other k ∧
      length self = length other) := by
  refine ⟨⟨rfl, rfl, rfl⟩, ⟨rfl, rfl⟩, ?_, ?_, ?_⟩
  · unfold subscript_idx
    rw [hsame]
  · unfold subscript_key
    rw [hsame]
  · unfold length
    rw [hsame]

/-- Witness of C12 on the handle over `[10, 20, 30]`: `h[1]` wraps the reader of 20,
`h["a"]` wraps the null pointer and the length is 3. -/
theorem subscript_delegates_witness :
    reader hList123 = reader hList123 ∧
    (subscript_idx hList123 1 : Handle).q_ = some (integerReader 20) ∧
    (subscript_key hList123 "a" : Handle).q_ = none ∧
    length hList123 = 3 ∧
    (subscript_idx hList123 1 : Handle) = subscript_idx hList123 1 :=
  ⟨rfl, (subscript_delegates Handle hList123 hList123 rfl 1 "a").2.1.1,
    (subscript_delegates Handle hList123 hList123 rfl 1 "a").2.1.2,
    (subscript_delegates Handle hList123 hList123 rfl 1 "a").1.2.2,
    (subscript_delegates Handle hList123 hList123 rfl 1 "a").2.2.1⟩

/-! ## The iterator: dereference, increment, comparison -/

/-- Incrementing `n` times the iterator built on `e` gives the iterator built on `e`
advanced `n` times. -/
theorem iterator.incr_n_make [FromReaderPtr Self] (n : Nat) :
    ∀ e : IReaderEnumerator,
      iterator.incr_n n (⟨some e, FromReaderPtr.from_ptr e.current_value⟩ : iterator Self) =
        .ok ⟨some (IReaderEnumerator.move_next_n n e),
          FromReaderPtr.from_ptr (IReaderEnumerator.move_next_n n e).current_value⟩ := by
  induction n with
  | zero => intro e; rfl
  | succ m ih =>
    intro e
    show iterator.incr_n m (⟨some e.move_next,
      FromReaderPtr.from_ptr e.move_next.current_value⟩ : iterator Self) = _
    exact ih e.move_next

/-- C13: the iterator's dereferenced value mirrors its enumerator. The iterator
constructed from an enumerator `e` holds `e` and dereferences to the handle built
from `e.current_value()`; `operator++` on an iterator holding `e` yields the
iterator holding `e` after exactly one `move_next()`, with the handle built from its
new `current_value()`; so after `n` increments the iterator holds `e` advanced `n`
times and dereferences to the handle of that enumerator's current child. -/
theorem iterator_mirrors_enumerator [FromReaderPtr Self] (e : IReaderEnumerator) (n : Nat) :
    (iterator.make (some e) : Except Fault (iterator Self)) =
      .ok ⟨some e, FromReaderPtr.from_ptr e.current_value⟩ ∧
    iterator.deref (⟨some e, FromReaderPtr.from_ptr e.current_value⟩ : iterator Self) =
      FromReaderPtr.from_ptr e.current_value ∧
    (∀ a : iterator Self, a.enumerator_ = some e →
      iterator.incr a =
        .ok ⟨some e.move_next, FromReaderPtr.from_ptr e.move_next.current_value⟩) ∧
    iterator.incr_n n (⟨some e, FromReaderPtr.from_ptr e.current_value⟩ : iterator Self) =
      .ok ⟨some (IReaderEnumerator.move_next_n n e),
        FromReaderPtr.from_ptr (IReaderEnumerator.move_next_n n e).current_value⟩ := by
  refine ⟨rfl, rfl, ?_, iterator.incr_n_make n e⟩
  intro a ha
  unfold iterator.incr
  rw [ha]

/-- Witness of C13 on the iterator at the first element of `[10, 20, 30]`: one
increment moves it to the reader of 20, two increments to the reader of 30. -/
theorem iterator_mirrors_enumerator_witness :
    itFirst.enumerator_ = some (listEnumeratorFrom list123 0) ∧
    iterator.incr itFirst =
      .ok ⟨some (listEnumeratorFrom list123 1), Handle.mk (some (integerReader 20))⟩ ∧
    iterator.incr_n 2 itFirst =
      .ok ⟨some (listEnumeratorFrom list123 2), Handle.mk (some (integerReader 30))⟩ :=
  ⟨rfl,
    (iterator_mirrors_enumerator (listEnumeratorFrom list123 0) 2).2.2.1 itFirst rfl,
    (iterator_mirrors_enumerator (listEnumeratorFrom list123 0) 2).2.2.2⟩

/-- C14, at the failing input: for the positioned iterator and the exhausted one
`a == b` is false, yet `a != b` returns no value; indeed `operator!=` returns a value
for no pair of iterators, since its body ends without a return statement. -/
theorem iterator_ne_no_value :
    (iterator.eq itFirst itEnd = .ok false ∧
      iterator.ne itFirst itEnd = .error Fault.no_return) ∧
    ∀ (a b : iterator Handle) (v : Bool), iterator.ne a b ≠ .ok v := by
  refine ⟨⟨rfl, rfl⟩, ?_⟩
  intro a b v h
  unfold iterator.ne at h
  cases hq : iterator.eq a b with
  | error f => rw [hq] at h; cases h
  | ok w => rw [hq] at h; cases h

/-- C15, at the failing input: comparing an iterator whose enumerator pointer is null
with an iterator on the At-End Enumerator, in either order, passes the test for two
null pointers and then calls `at_end()` through the null pointer. -/
theorem iterator_eq_mixed_null_faults :
    itNull.enumerator_ = none ∧ itEnd.enumerator_ = some ReaderEnumeratorAtEnd ∧
    iterator.eq itNull itEnd = .error Fault.null_deref ∧
    iterator.eq itEnd itNull = .error Fault.null_deref :=
  ⟨rfl, rfl, rfl, rfl⟩

/-- C16: over iterators that hold an enumerator, `operator==` is an equivalence
relation: it is reflexive, symmetric and transitive, and two iterators are equal
exactly when their enumerators give the same `at_end()` answer, so the classes are
the exhausted and the non-exhausted iterators, and both classes are inhabited. -/
theorem iterator_eq_equivalence (a b c : iterator Self) (ea eb ec : IReaderEnumerator)
    (ha : a.enumerator_ = some ea) (hb : b.enumerator_ = some eb)
    (hc : c.enumerator_ = some ec) :
    iterator.eq a a = .ok true ∧
    (iterator.eq a b = .ok true → iterator.eq b a = .ok true) ∧
    (iterator.eq a b = .ok true → iterator.eq b c = .ok true →
      iterator.eq a c = .ok true) ∧
    (iterator.eq a b = .ok true ↔ ea.at_end = eb.at_end) ∧
    (iterator.eq a b = .ok true ∨ iterator.eq a b = .ok false) ∧
    (∃ x y : iterator Handle, ∃ ex ey : IReaderEnumerator,
      x.enumerator_ = some ex ∧ y.enumerator_ = some ey ∧
      ex.at_end = true ∧ ey.at_end = false) := by
  rw [iterator.eq_of_some a a ea ea ha ha, iterator.eq_of_some a b ea eb ha hb,
    iterator.eq_of_some b a eb ea hb ha, iterator.eq_of_some b c eb ec hb hc,
    iterator.eq_of_some a c ea ec ha hc]
  refine ⟨?_, ?_, ?_, ?_, ?_, ⟨itEnd, itFirst, ReaderEnumeratorAtEnd,
    listEnumeratorFrom list123 0, rfl, rfl, rfl, rfl⟩⟩ <;>
    cases ea.at_end <;> cases eb.at_end <;> cases ec.at_end <;> simp

/-- Witness of C16 on three positioned iterators over two lists: each equals itself
and they are equal pairwise, in both orders. -/
theorem iterator_eq_equivalence_witness :
    iterator.eq itFirst itFirst = .ok true ∧
    (iterator.eq itFirst itOther = .ok true → iterator.eq itOther itFirst = .ok true) ∧
    (iterator.eq itFirst itOther = .ok true → iterator.eq itOther itThird = .ok true →
      iterator.eq itFirst itThird = .ok true) ∧
    iterator.eq itFirst itThird = .ok true :=
  ⟨(iterator_eq_equivalence itFirst itOther itThird (listEnumeratorFrom list123 0)
      (listEnumeratorFrom listT 0)
      (IReaderEnumerator.move_next_n 2 (listEnumeratorFrom list123 0)) rfl rfl rfl).1,
    (iterator_eq_equivalence itFirst itOther itThird (listEnumeratorFrom list123 0)
      (listEnumeratorFrom listT 0)
      (IReaderEnumerator.move_next_n 2 (listEnumeratorFrom list123 0)) rfl rfl rfl).2.1,
    (iterator_eq_equivalence itFirst itOther itThird (listEnumeratorFrom list123 0)
      (listEnumeratorFrom listT 0)
      (IReaderEnumerator.move_next_n 2 (listEnumeratorFrom list123 0)) rfl rfl rfl).2.2.1,
    (iterator_eq_equivalence itFirst itOther itThird (listEnumeratorFrom list123 0)
      (listEnumeratorFrom listT 0)
      (IReaderEnumerator.move_next_n 2 (listEnumeratorFrom list123 0)) rfl rfl rfl).2.2.1
      rfl rfl⟩

/-! ## The unwrap in the success branch -/

/-- The Boolean extraction faults exactly on a Boolean reader without a Boolean. -/
theorem shr_boolean_fault_iff [ReaderHandle Self] (self : Self) (b : Boolean) :
    shr_boolean self b = .error Fault.empty_maybe ↔
      (reader self).type = DataType.Boolean ∧ (reader self).get_boolean = none := by
  by_cases h : (reader self).type = DataType.Boolean
  · cases hv : (reader self).get_boolean with
    | none => simp [shr_boolean, h, hv, Maybe.deref, bind, Except.bind]
    | some v => rw [shr_boolean_of_eq self b v h hv]; simp
  · rw [shr_boolean_of_ne self b h]
    simp [h]

/-- The Integer extraction faults exactly on an Integer reader without an Integer. -/
theorem shr_integer_fault_iff [ReaderHandle Self] (self : Self) (n : Integer) :
    shr_integer self n = .error Fault.empty_maybe ↔
      (reader self).type = DataType.Integer ∧ (reader self).get_integer = none := by
  by_cases h : (reader self).type = DataType.Integer
  · cases hv : (reader self).get_integer with
    | none => simp [shr_integer, h, hv, Maybe.deref, bind, Except.bind]
    | some v => rw [shr_integer_of_eq self n v h hv]; simp
  · rw [shr_integer_of_ne self n h]
    simp [h]

/-- The Real extraction faults exactly on a Real reader without a Real. -/
theorem shr_real_fault_iff [ReaderHandle Self] (self : Self) (x : Real) :
    shr_real self x = .error Fault.empty_maybe ↔
      (reader self).type = DataType.Real ∧ (reader self).get_real = none := by
  by_cases h : (reader self).type = DataType.Real
  · cases hv : (reader self).get_real with
    | none => simp [shr_real, h, hv, Maybe.deref, bind, Except.bind]
    | some v => rw [shr_real_of_eq self x v h hv]; simp
  · rw [shr_real_of_ne self x h]
    simp [h]

/-- The String extraction faults exactly on a String reader without a String. -/
theorem shr_string_fault_iff [ReaderHandle Self] (self : Self) (s : String) :
    shr_string self s = .error Fault.empty_maybe ↔
      (reader self).type = DataType.String ∧ (reader self).get_string = none := by
  by_cases h : (reader self).type = DataType.String
  · cases hv : (reader self).get_string with
    | none => simp [shr_string, h, hv, Maybe.deref, bind, Except.bind]
    | some v => rw [shr_string_of_eq self s v h hv]; simp
  · rw [shr_string_of_ne self s h]
    simp [h]

/-- C17, as stated, fails: the reader that reports the type Integer while its
`get_integer()` is absent sends `operator>>(Integer&)` into its success branch,
where the unwrap meets the absent optional. -/
theorem shr_integer_unwraps_absent :
    (reader hHollow).type = DataType.Integer ∧
    (reader hHollow).get_integer = none ∧
    shr_integer hHollow 0 = .error Fault.empty_maybe :=
  ⟨rfl, rfl, rfl⟩

/-- C17, amended: for every reader and scalar kind K such that `get_K()` is present
whenever the type is K, the extraction for K never unwraps an absent optional and
returns a result. The facade does not test the optional itself: the unwrap meets
the absent case exactly when the reader reports type K with an absent `get_K()`. -/
theorem shr_unwrap_safe [ReaderHandle Self] (self : Self)
    (b : Boolean) (n : Integer) (x : Real) (s : String) :
    ((((reader self).type = DataType.Boolean → ∃ v, (reader self).get_boolean = some v) →
        ∃ out, shr_boolean self b = .ok out) ∧
      (((reader self).type = DataType.Integer → ∃ v, (reader self).get_integer = some v) →
        ∃ out, shr_integer self n = .ok out) ∧
      (((reader self).type = DataType.Real → ∃ v, (reader self).get_real = some v) →
        ∃ out, shr_real self x = .ok out) ∧
      (((reader self).type = DataType.String → ∃ v, (reader self).get_string = some v) →
        ∃ out, shr_string self s = .ok out)) ∧
    ((shr_boolean self b = .error Fault.empty_maybe ↔
        (reader self).type = DataType.Boolean ∧ (reader self).get_boolean = none) ∧
      (shr_integer self n = .error Fault.empty_maybe ↔
        (reader self).type = DataType.Integer ∧ (reader self).get_integer = none) ∧
      (shr_real self x = .error Fault.empty_maybe ↔
        (reader self).type = DataType.Real ∧ (reader self).get_real = none) ∧
      (shr_string self s = .error Fault.empty_maybe ↔
        (reader self).type = DataType.String ∧ (reader self).get_string = none)) := by
  refine ⟨⟨?_, ?_, ?_, ?_⟩, shr_boolean_fault_iff self b, shr_integer_fault_iff self n,
    shr_real_fault_iff self x, shr_string_fault_iff self s⟩
  · intro hp
    by_cases h : (reader self).type = DataType.Boolean
    · obtain ⟨v, hv⟩ := hp h
      exact ⟨(true, v), shr_boolean_of_eq self b v h hv⟩
    · exact ⟨(false, b), shr_boolean_of_ne self b h⟩
  · intro hp
    by_cases h : (reader self).type = DataType.Integer
    · obtain ⟨v, hv⟩ := hp h
      exact ⟨(true, v), shr_integer_of_eq self n v h hv⟩
    · exact ⟨(false, n), shr_integer_of_ne self n h⟩
  · intro hp
    by_cases h : (reader self).type = DataType.Real
    · obtain ⟨v, hv⟩ := hp h
      exact ⟨(true, v), shr_real_of_eq self x v h hv⟩
    · exact ⟨(false, x), shr_real_of_ne self x h⟩
  · intro hp
    by_cases h : (reader self).type = DataType.String
    · obtain ⟨v, hv⟩ := hp h
      exact ⟨(true, v), shr_string_of_eq self s v h hv⟩
    · exact ⟨(false, s), shr_string_of_ne self s h⟩

/-- Witness of C17, amended, on the handle over the Integer 42, whose `get_integer()`
is present and whose other getters are never unwrapped. -/
theorem shr_unwrap_safe_witness :
    ((reader hInt42).type = DataType.Integer → ∃ v, (reader hInt42).get_integer = some v) ∧
    (∃ out, shr_integer hInt42 0 = .ok out) ∧
    (∃ out, shr_boolean hInt42 false = .ok out) ∧
    (∃ out, shr_real hInt42 ⟨0⟩ = .ok out) ∧
    (∃ out, shr_string hInt42 "" = .ok out) :=
  ⟨fun _ => ⟨42, rfl⟩,
    (shr_unwrap_safe hInt42 false 0 ⟨0⟩ "").1.2.1 (fun _ => ⟨42, rfl⟩),
    (shr_unwrap_safe hInt42 false 0 ⟨0⟩ "").1.1 (fun h => absurd h (by decide)),
    (shr_unwrap_safe hInt42 false 0 ⟨0⟩ "").1.2.2.1 (fun h => absurd h (by decide)),
    (shr_unwrap_safe hInt42 false 0 ⟨0⟩ "").1.2.2.2 (fun h => absurd h (by decide))⟩

end ReaderInterface

end wayward.data_franca
